import Mathlib

/-!
# Shallow embedding of the sysweb3 KeyringManager

This file embeds the keyring state machine of
`packages/sysweb3-keyring/src/keyring-manager.ts` together with the wallet
data model of `packages/sysweb3-utils/src/networks.ts`, and proves or refutes
the frozen claims about it.

Modelling conventions:
* The module-level mutable variables of the `KeyringManager` closure
  (`_password`, `hd`, `main`, `wallet`) and the five fixed keys of the
  storage collaborator (`vault`, `vault-key`, `signers-key`, `keyring`,
  `signers`) are flattened into one explicit state record `KMState`.
* The `vault` record holds `JSON.stringify(wallet)`; since the claims never
  inspect the raw string and `JSON.stringify` is injective on this data, the
  blob is stored as the decoded `WalletState` value.
* JS `undefined`/`null` fields are `Option`; a JS runtime `TypeError`
  (property access on `null`/`undefined`) is modelled by an `Option` result
  of the whole operation (`none` = crash).
* External collaborators (signer library, chain indexers, RPC validation)
  are modelled from the spec where their repository source is not available;
  each such definition carries a `Modelled from the spec:` doc comment.
  Network/indexer query results are passed in as explicit oracle arguments.
* Incidental account fields never read by the keyring code or the claims
  (`trezorId`, `nfts`) are omitted from the account record.
-/

namespace Sysweb3

/-- `INetwork` from `networks.ts`: a network descriptor. Optional fields of
the TS type are `Option`. The `key`/`wsUrl` optional fields are never set by
any code under consideration and are omitted. -/
structure Network where
  chainId : Nat
  url : String
  label : String
  isDefault : Option Bool
  currency : Option String
deriving DecidableEq, Repr

/-- A JS number as it appears in balance fields: modelled as an exact,
unnormalized fraction (the only arithmetic performed on balances is the
satoshi scaling `balance / 1e8`). Equality is representation equality,
which suffices because no claim compares arithmetically distinct balance
expressions. -/
structure JSNum where
  num : Int
  den : Nat
deriving DecidableEq, Repr

/-- The JS number `0`. -/
def jsZero : JSNum := { num := 0, den := 1 }

/-- Division of a JS balance by a natural constant (`balance / 1e8`). -/
def JSNum.divNat (a : JSNum) (k : Nat) : JSNum := { a with den := a.den * k }

/-- Per-chain-family balances of an account (`IKeyringBalances`). -/
structure Balances where
  syscoin : JSNum
  ethereum : JSNum
deriving DecidableEq, Repr

/-- `IKeyringAccountState`: the account shape built by
`_getInitialAccountData` / `initialActiveAccountState`. `address`,
`transactions` and `assets` may be JS `undefined` (the syscoin-derived
accounts are built without a `receivingAddress` field). Transactions and
asset symbols are kept opaque as strings. -/
structure KAccount where
  id : Int
  label : String
  balances : Balances
  xpub : String
  xprv : String
  address : Option String
  isTrezorWallet : Bool
  transactions : Option (List String)
  assets : Option (List String)
deriving DecidableEq, Repr

/-- Association-list lookup, modelling JS object property read `m[k]`. -/
def alookup {κ α : Type} [DecidableEq κ] : List (κ × α) → κ → Option α
  | [], _ => none
  | (k, v) :: rest, key => if k = key then some v else alookup rest key

/-- Association-list insert/overwrite, modelling `{ ...m, [k]: v }` /
property write. -/
def ainsert {κ α : Type} [DecidableEq κ] : List (κ × α) → κ → α → List (κ × α)
  | [], key, v => [(key, v)]
  | (k, w) :: rest, key, v =>
      if k = key then (k, v) :: rest else (k, w) :: ainsert rest key v

/-- Association-list delete, modelling `delete m[k]`. -/
def aerase {κ α : Type} [DecidableEq κ] : List (κ × α) → κ → List (κ × α)
  | [], _ => []
  | (k, w) :: rest, key => if k = key then rest else (k, w) :: aerase rest key

/-- The two chain families (`INetworkType`). The public API's `chain`
argument names a chain family, `'syscoin'` or `'ethereum'`. -/
inductive Chain where
  | syscoin
  | ethereum
deriving DecidableEq, Repr

/-- The other chain family. -/
def otherChain : Chain → Chain
  | Chain.syscoin => Chain.ethereum
  | Chain.ethereum => Chain.syscoin

/-- `networks` field of `IWalletState`: per chain family, a map from
chainId to network descriptor. -/
structure NetworksState where
  syscoin : List (Nat × Network)
  ethereum : List (Nat × Network)
deriving DecidableEq, Repr

/-- Read one chain family's map. -/
def netGet (n : NetworksState) : Chain → List (Nat × Network)
  | Chain.syscoin => n.syscoin
  | Chain.ethereum => n.ethereum

/-- Replace one chain family's map (`{ ...networks, [chain]: v }`). -/
def netSet (n : NetworksState) : Chain → List (Nat × Network) → NetworksState
  | Chain.syscoin, v => { n with syscoin := v }
  | Chain.ethereum, v => { n with ethereum := v }

/-- `IWalletState`: the aggregate wallet state. -/
structure WalletState where
  accounts : List (Int × KAccount)
  activeAccount : KAccount
  networks : NetworksState
  activeNetwork : Network
deriving DecidableEq, Repr

/-- `initialActiveAccountState` from `networks.ts` (incidental `trezorId`
and `nfts` fields omitted). -/
def initialActiveAccountState : KAccount :=
  { id := -1
    label := "Account 1"
    balances := { syscoin := jsZero, ethereum := jsZero }
    xpub := ""
    xprv := ""
    address := some ""
    isTrezorWallet := false
    transactions := some []
    assets := some [] }

/-- `initialNetworksState` from `networks.ts`, transcribed entry by entry. -/
def initialNetworksState : NetworksState :=
  { syscoin :=
      [ (57, { chainId := 57, label := "Syscoin Mainnet",
               url := "https://blockbook.elint.services/",
               isDefault := some true, currency := some "sys" }),
        (5700, { chainId := 5700, label := "Syscoin Testnet",
                 url := "https://blockbook-dev.elint.services/",
                 isDefault := some true, currency := some "tsys" }) ]
    ethereum :=
      [ (1, { chainId := 1,
              url := "https://mainnet.infura.io/v3/c42232a29f9d4bd89d53313eb16ec241",
              label := "Ethereum Mainnet",
              isDefault := some true, currency := some "eth" }),
        (42, { chainId := 42, url := "https://kovan.poa.network",
               label := "Kovan", isDefault := some true,
               currency := some "kov" }),
        (4, { chainId := 4, label := "Rinkeby",
              url := "https://rinkeby.infura.io/v3/c42232a29f9d4bd89d53313eb16ec241",
              isDefault := some true, currency := some "rin" }),
        (3, { chainId := 3, currency := some "rop", isDefault := some true,
              label := "Ropsten",
              url := "https://ropsten.infura.io/v3/c42232a29f9d4bd89d53313eb16ec241" }),
        (5, { chainId := 5, currency := some "gor", isDefault := some true,
              label := "Goerli",
              url := "https://goerli.infura.io/v3/c42232a29f9d4bd89d53313eb16ec241" }),
        (137, { chainId := 137, currency := some "matic",
                isDefault := some true, label := "Polygon Mainnet",
                url := "https://polygon-rpc.com" }),
        (80001, { chainId := 80001, currency := some "matic",
                  isDefault := some true, label := "Polygon Mumbai Testnet",
                  url := "https://rpc-mumbai.maticvigil.com" }),
        (57, { chainId := 57, currency := some "sys", isDefault := some true,
               label := "Syscoin Mainnet", url := "https://rpc.syscoin.org" }),
        (5700, { chainId := 5700, currency := some "tsys",
                 isDefault := some true, label := "Syscoin Tanenbaum",
                 url := "https://rpc.tanenbaum.io" }) ] }

/-- The default active network of `initialWalletState` (Syscoin mainnet). -/
def defaultSyscoinNetwork : Network :=
  { chainId := 57, label := "Syscoin Mainnet",
    url := "https://blockbook.elint.services/",
    isDefault := some true, currency := some "sys" }

/-- `initialWalletState` from `networks.ts`. -/
def initialWalletState : WalletState :=
  { accounts := []
    activeAccount := initialActiveAccountState
    networks := initialNetworksState
    activeNetwork := defaultSyscoinNetwork }

/-- Byte sequence of a string, as used by the symmetric codec.
Modelled from the spec: the SecretCodec (spec 4.1) operates on "opaque
strings"; the byte-level text encoding is abstracted as character codes
(exact for ASCII text such as mnemonics and hex). -/
def strBytes (s : String) : List Nat := s.data.map Char.toNat

/-- Inverse text decoding of a byte sequence (the `CryptoJS.enc.Utf8`
stringifier the source fails to pass to `toString`). -/
def bytesToStr (l : List Nat) : String := String.mk (l.map Char.ofNat)

/-- Lowercase hex digit for a value below 16. -/
def hexDigitChar (n : Nat) : Char :=
  if n < 10 then Char.ofNat (48 + n) else Char.ofNat (87 + n)

/-- Two lowercase hex digits of one byte. -/
def byteToHex (n : Nat) : String :=
  String.mk [hexDigitChar (n / 16 % 16), hexDigitChar (n % 16)]

/-- `WordArray.toString()` with no argument: CryptoJS stringifies the
decrypted word array with the default `Hex` encoder, yielding the lowercase
hex rendering of the bytes, not the original text. -/
def wordArrayToHex (l : List Nat) : String := String.join (l.map byteToHex)

/-- Modelled from the spec: the external `CryptoJS.AES` ciphertext
(spec 4.1 SecretCodec). The ciphertext is kept structured (message and
password) rather than as its OpenSSL-format serialization, which round-trips
through `String(...)` / `CryptoJS.AES.decrypt` and is never inspected. -/
structure AESCipher where
  msg : String
  pwd : String
deriving DecidableEq, Repr

/-- Modelled from the spec: `CryptoJS.AES.encrypt` (external primitive,
spec 4.1: pure symmetric encryption). -/
def aesEncrypt (m p : String) : AESCipher := { msg := m, pwd := p }

/-- Modelled from the spec: `CryptoJS.AES.decrypt` (external primitive,
spec 4.1). With the matching password it recovers the plaintext's bytes as a
word array; with a wrong password the result carries no plaintext (modelled
as the empty word array). -/
def aesDecrypt (c : AESCipher) (p : String) : List Nat :=
  if c.pwd = p then strBytes c.msg else []

/-- Modelled from the spec: the opaque string rendering of a ciphertext
(`CipherParams.toString()`, OpenSSL format), used only as an inert token
stored in `xprv` fields. -/
def cipherStr (c : AESCipher) : String := "U2F" ++ c.msg ++ "/" ++ c.pwd

/-- Modelled from the spec: the external base64 `atob` decoding applied to
asset symbols; no claim depends on asset symbols, so it is abstracted as the
identity on the opaque symbol string. -/
def atobDecode (s : String) : String := s

/-- Modelled from the spec: the memory-resident `SyscoinHDSigner`
(spec 4.3 ChainSignerAdapter, UTXO family). Only the members the keyring
reads are modelled: the mnemonic, the current `Signer.accountIndex` and the
number of derived accounts (`Signer.accounts.length`). -/
structure HDSigner where
  mnemonic : Option String
  accountIndex : Int
  accountsCount : Nat
deriving DecidableEq, Repr

/-- Modelled from the spec: the memory-resident `SyscoinMainSigner`; only
`blockbookURL` is read by the keyring. -/
structure MainSigner where
  blockbookURL : String
deriving DecidableEq, Repr

/-- `hd = {} as SyscoinHDSigner`: the empty cast object (no mnemonic, no
accounts). -/
def emptyHDSigner : HDSigner :=
  { mnemonic := none, accountIndex := 0, accountsCount := 0 }

/-- `main = {} as SyscoinMainSigner`. -/
def emptyMainSigner : MainSigner := { blockbookURL := "" }

/-- The `signers` storage record (`storage.set('signers', { _hd, _main })`). -/
structure SignersRecord where
  hd : HDSigner
  main : MainSigner
deriving DecidableEq, Repr

/-- The `signers-key` storage record: `{ mnemonic, network, isTestnet }`.
`mnemonic` and `network` may be `null` (`none`); `isTestnet` is `none` when
the field is absent from the written object (first write of
`_setSignerByChain` drops it). -/
structure SignersKeyRecord where
  mnemonic : Option String
  network : Option Network
  isTestnet : Option Bool
deriving DecidableEq, Repr

/-- The `keyring` storage record: `{ wallet, isUnlocked }` (the plaintext
snapshot). It is written at construction, so `wallet` is always present. -/
structure KeyringRecord where
  wallet : WalletState
  isUnlocked : Bool
deriving DecidableEq, Repr

/-- Modelled from the spec: `getSigners()` re-materializes the signer pair
from the bootstrap record (spec 2: SignerBootstrapRecord "exists only while
memory-resident signer objects need re-materializing"; spec 4.4
createVault "derives the first account (index 0)"). A fresh materialization
has one derived account at index 0; a previously stored signer pair
(`storage.set('signers', ...)`) is returned as stored. -/
def getSigners (r : SignersKeyRecord) (stored : Option SignersRecord) :
    HDSigner × MainSigner :=
  match stored with
  | some rec => (rec.hd, rec.main)
  | none =>
      ({ mnemonic := r.mnemonic, accountIndex := 0, accountsCount := 1 },
       { blockbookURL := (r.network.map Network.url).getD "" })

/-- Modelled from the spec: `hd.createAccount()` hands back the next unused
derivation index (spec 4.3: "the adapter, not the caller, hands back the
next unused index"). -/
def hdCreateAccount (h : HDSigner) : Int × HDSigner :=
  ((h.accountsCount : Int), { h with accountsCount := h.accountsCount + 1 })

/-- Modelled from the spec: `hd.Signer.accounts[i].getAccountPrivateKey()`
(spec 4.3: deterministic in seed and index). -/
def hdAccountPrivateKey (h : HDSigner) : String :=
  (h.mnemonic.getD "") ++ "/xprv/" ++ toString h.accountIndex

/-- Modelled from the spec: `hd.getAccountXpub()` (spec 4.3: deterministic
extended public key for seed and index). -/
def hdAccountXpub (h : HDSigner) : String :=
  (h.mnemonic.getD "") ++ "/xpub/" ++ toString h.accountIndex

/-- Modelled from the spec: `web3Wallet.importAccount(mnemonic).address`
(account-based family; deterministic in the seed, spec 4.3). -/
def web3AddressOf (mnemonic : String) : String := "0x/" ++ mnemonic

/-- Modelled from the spec: `web3Wallet.importAccount(mnemonic).privateKey`. -/
def web3PrivateKeyOf (mnemonic : String) : String := "pk/" ++ mnemonic

/-- Oracle: the result of the external syscoin backend queries made by
`_getLatestUpdateForSysAccount` (`sys.utils.fetchBackendAccount` and
`hd.getNewReceivingAddress`). -/
structure SysFetchResult where
  backendAddress : String
  balance : JSNum
  transactions : List String
  tokensAsset : List String
  receivingAddress : String
deriving DecidableEq, Repr

/-- Oracle: the results of the external web3 indexer queries made by
`_getLatestUpdateForWeb3Accounts` (`getBalance`, `getUserTransactions`). -/
structure Web3FetchResult where
  balance : JSNum
  transactions : List String
deriving DecidableEq, Repr

/-- Oracle: the fresh account generated by `web3Wallet.createAccount()` in
the ethereum branch of `addNewAccount`, plus its queried balance. -/
structure Web3NewAccount where
  address : String
  privateKey : String
  balance : JSNum
deriving DecidableEq, Repr

/-- The whole mutable state of one `KeyringManager()` closure: the
module-level variables and the five storage records. -/
structure KMState where
  password : String
  hd : HDSigner
  main : MainSigner
  wallet : WalletState
  vault : Option WalletState
  vaultKey : Option String
  signersKey : SignersKeyRecord
  keyring : KeyringRecord
  signers : Option SignersRecord
deriving DecidableEq, Repr

/-- Observable persistence/notification events, in emission order:
`persistVault w` = `storage.set('vault', JSON.stringify(w))`;
`snapshotKeyring w` = `storage.set('keyring', { ...keyring, wallet: w })`;
`setUnlockedFlag b` = `storage.set('keyring', { ...keyring, isUnlocked: b })`;
`notifyUpdate k` = `eventEmitter.emit('update', k)`; plus the
`unlock`/`lock` emissions. -/
inductive KEvent where
  | persistVault (w : WalletState)
  | snapshotKeyring (w : WalletState)
  | setUnlockedFlag (b : Bool)
  | notifyUpdate (k : KeyringRecord)
  | emitUnlock
  | emitLock
deriving DecidableEq, Repr

/-- Whether an event is a vault persist (`storage.set('vault', ...)`). -/
def KEvent.isPersist : KEvent → Bool
  | KEvent.persistVault _ => true
  | _ => false

/-- `checkPassword(pwd)` (keyring-manager.ts lines 71-77): compares the
`vault-key` storage record with the argument; on success it also stores the
argument into the module-level `_password`. -/
def checkPassword (s : KMState) (pwd : String) : Bool × KMState :=
  let isValid := s.vaultKey = some pwd
  if isValid then (true, { s with password := pwd }) else (false, s)

/-- `setWalletPassword(pwd)` (lines 407-411): sets `_password` and writes
the raw password to the `vault-key` storage record. -/
def setWalletPassword (s : KMState) (pwd : String) : KMState :=
  { s with password := pwd, vaultKey := some pwd }

/-- JS falsiness of the stored mnemonic (`null`, absent or `''`). -/
def isFalsyStr : Option String → Bool
  | none => true
  | some str => str = ""

/-- `createSeed()` (lines 413-420): generates a mnemonic (the external
`generateMnemonic()` result is passed as `generated`) only when none is
stored, and returns the stored mnemonic. -/
def createSeed (s : KMState) (generated : String) : Option String × KMState :=
  let s :=
    if isFalsyStr s.signersKey.mnemonic then
      { s with signersKey := { s.signersKey with mnemonic := some generated } }
    else s
  (s.signersKey.mnemonic, s)

/-- `validateSeed(seedphrase)` (lines 504-515): the external bip39
`validateMnemonic` verdict is passed as `valid`; a valid phrase is stored in
the bootstrap record. -/
def validateSeed (s : KMState) (seedphrase : String) (valid : Bool) :
    Bool × KMState :=
  if valid then
    (true,
     { s with signersKey := { s.signersKey with mnemonic := some seedphrase } })
  else (false, s)

/-- `_updateLocalStoreWallet()` (lines 163-165): rewrites the plaintext
snapshot's `wallet` field from the in-memory wallet. -/
def updateLocalStoreWallet (s : KMState) : KMState × List KEvent :=
  ({ s with keyring := { s.keyring with wallet := s.wallet } },
   [KEvent.snapshotKeyring s.wallet])

/-- `_clearWallet()` (lines 132-136): resets the in-memory wallet to
`initialWalletState` and rewrites the snapshot. -/
def clearWallet (s : KMState) : KMState × List KEvent :=
  updateLocalStoreWallet { s with wallet := initialWalletState }

/-- `_clearTemporaryLocalKeys()` (lines 138-146): blanks the bootstrap
mnemonic, records the active network, and clears the in-memory password. -/
def clearTemporaryLocalKeys (s : KMState) : KMState :=
  { s with
    signersKey := { s.signersKey with
                    mnemonic := some ""
                    network := some s.wallet.activeNetwork }
    password := "" }

/-- `forgetSigners()` (lines 57-67): drops both in-memory signer objects and
nulls the `signers-key` and `signers` records. -/
def forgetSigners (s : KMState) : KMState :=
  { s with
    hd := emptyHDSigner
    main := emptyMainSigner
    signersKey := { mnemonic := none, network := none, isTestnet := some false }
    signers := none }

/-- `_persistWallet(password = _password)` (lines 148-161): serializes the
in-memory wallet into the `vault` record. The non-string-password guard of
line 149 is unreachable in the embedding, where the password is always a
string. -/
def persistWallet (s : KMState) : KMState × List KEvent :=
  ({ s with vault := some s.wallet }, [KEvent.persistVault s.wallet])

/-- `_notifyUpdate()` (lines 167-171): emits `update` with the current
`keyring` record. -/
def notifyUpdate (s : KMState) : KMState × List KEvent :=
  (s, [KEvent.notifyUpdate s.keyring])

/-- `_fullUpdate()` (lines 173-177): persist, then snapshot, then notify.
The return value of `_persistWallet` is discarded. -/
def fullUpdate (s : KMState) : KMState × List KEvent :=
  let (s, e1) := persistWallet s
  let (s, e2) := updateLocalStoreWallet s
  let (s, e3) := notifyUpdate s
  (s, e1 ++ e2 ++ e3)

/-- `_updateUnlocked()` (lines 179-184): flips the snapshot's `isUnlocked`
flag and emits `unlock`. -/
def updateUnlocked (s : KMState) : KMState × List KEvent :=
  ({ s with keyring := { s.keyring with isUnlocked := true } },
   [KEvent.setUnlockedFlag true, KEvent.emitUnlock])

/-- `_unlockWallet(password)` (lines 186-203): reloads the in-memory wallet
from the plaintext snapshot (always present in the embedding, since the
constructor writes it) after clearing it, and stores the password. -/
def unlockWallet (s : KMState) (password : String) : KMState × List KEvent :=
  let w := s.keyring.wallet
  let (s, e1) := clearWallet s
  let s := { s with wallet := w, password := password }
  let (s, e2) := updateLocalStoreWallet s
  (s, e1 ++ e2)

/-- `getEncryptedMnemonic()` (lines 84-91): AES-encrypts the bootstrap
mnemonic under the in-memory password. (Encrypting a `null` mnemonic is
undefined behaviour in CryptoJS; abstracted to the empty string. The
`String(...)` coercion of the ciphertext is abstracted away, see
`AESCipher`.) -/
def getEncryptedMnemonic (s : KMState) : AESCipher :=
  aesEncrypt (s.signersKey.mnemonic.getD "") s.password

/-- `getDecryptedMnemonic()` (lines 93-100): decrypts
`getEncryptedMnemonic()` under `_password` and stringifies the word array
with `.toString()` and no encoder argument, i.e. with CryptoJS's default
hex encoder. -/
def getDecryptedMnemonic (s : KMState) : String :=
  wordArrayToHex (aesDecrypt (getEncryptedMnemonic s) s.password)

/-- `getEncryptedXprv()` (lines 501-502): encrypts the signer's account
private key under the in-memory password and renders it as a string. -/
def getEncryptedXprv (s : KMState) : String :=
  cipherStr (aesEncrypt (hdAccountPrivateKey s.hd) s.password)

/-- The destructurable result shape `{ balances, receivingAddress, xpub,
transactions, assets }` consumed by `_getInitialAccountData`; fields absent
from the producing object are `none`, plus the `address` field produced by
`_getLatestUpdateForSysAccount` (which `_getInitialAccountData` ignores). -/
structure CreatedAccount where
  balances : Balances
  receivingAddress : Option String
  xpub : String
  transactions : Option (List String)
  assets : Option (List String)
  address : Option String
deriving DecidableEq, Repr

/-- `_getInitialAccountData({label, signer, createdAccount, xprv})`
(lines 274-302): builds the account record; its id is the signer's current
account index and its address is the `receivingAddress` field of
`createdAccount` (absent, hence `undefined`, for the syscoin update shape). -/
def getInitialAccountData (label : Option String) (signer : HDSigner)
    (createdAccount : CreatedAccount) (xprv : String) : KAccount :=
  { id := signer.accountIndex
    label := label.getD ("Account " ++ toString (signer.accountIndex + 1))
    balances := createdAccount.balances
    xpub := createdAccount.xpub
    xprv := xprv
    address := createdAccount.receivingAddress
    isTrezorWallet := false
    transactions := createdAccount.transactions
    assets := createdAccount.assets }

/-- `_getFormattedBackendAccount({url, xpub})` (lines 351-378): shapes the
backend answer; keeps the 20 newest transactions and 30 newest assets with
base64-decoded symbols, and the balance scaled from satoshi. -/
def getFormattedBackendAccount (f : SysFetchResult) :
    Balances × String × List String × List String :=
  ({ syscoin := f.balance.divNat 100000000, ethereum := jsZero },
   f.backendAddress,
   f.transactions.take 20,
   (f.tokensAsset.take 30).map atobDecode)

/-- `_getLatestUpdateForSysAccount()` (lines 380-403): re-materializes the
signers, queries the backend for the signer's xpub (oracle `f`) and returns
the update shape (note: it carries an `address` field but no
`receivingAddress` field). -/
def getLatestUpdateForSysAccount (s : KMState) (f : SysFetchResult) :
    CreatedAccount × KMState :=
  let (h, m) := getSigners s.signersKey s.signers
  let s := { s with hd := h, main := m }
  let (balances, xpub, transactions, assets) := getFormattedBackendAccount f
  ({ balances := balances
     receivingAddress := none
     xpub := xpub
     transactions := some transactions
     assets := some assets
     address := some f.receivingAddress }, s)

/-- `_getLatestUpdateForWeb3Accounts()` (lines 234-272): derives the web3
account from the bootstrap mnemonic, queries balance and history (oracle
`f`), and returns a full account record carrying the active account's id.
Crashes (`none`) when the bootstrap mnemonic or network is `null`. -/
def getLatestUpdateForWeb3Accounts (s : KMState) (f : Web3FetchResult) :
    Option KAccount :=
  match s.signersKey.mnemonic, s.signersKey.network with
  | some mnemonic, some _network =>
      let address := web3AddressOf mnemonic
      let privateKey := web3PrivateKeyOf mnemonic
      let id := s.wallet.activeAccount.id
      some
        { id := id
          label := "Account " ++ toString id
          balances := { ethereum := f.balance, syscoin := jsZero }
          xpub := address
          xprv := privateKey
          address := some address
          isTrezorWallet := false
          transactions := some f.transactions
          assets := some [] }
  | _, _ => none

/-- The provider name picked by the chain-id conditional chain of
`_getLatestUpdateForWeb3Accounts` (lines 242-255); it only selects which
endpoint the external indexer is asked, and is otherwise inert. -/
def ethProviderName (chainId : Nat) : String :=
  if chainId = 1 then "homestead"
  else if chainId = 4 then "rinkeby"
  else if chainId = 42 then "kovan"
  else if chainId = 3 then "ropsten"
  else if chainId = 5 then "goerli"
  else "homestead"

/-- `_createMainWallet()` (lines 205-229): materializes the signer pair,
stores it in the `signers` record, computes the encrypted xprv (before the
backend query, as in the source), queries the backend (oracle `f`), builds
the first account from the signer captured at entry, and points the signer
at that account's index. (The `Object.assign` prototype copy changes no
modelled field; object aliasing between the local and module signer
variables is not modelled.) -/
def createMainWallet (s : KMState) (f : SysFetchResult) : KAccount × KMState :=
  let (h, m) := getSigners s.signersKey s.signers
  let s := { s with hd := h, main := m, signers := some { hd := h, main := m } }
  let xprv := getEncryptedXprv s
  let (createdAccount, s) := getLatestUpdateForSysAccount s f
  let account := getInitialAccountData none h createdAccount xprv
  let s := { s with hd := { s.hd with accountIndex := account.id } }
  (account, s)

/-- `createKeyringVault()` (lines 422-441): clears the wallet, creates the
main account, installs it as the sole new entry and active account, marks
the snapshot unlocked, and runs the persist/snapshot/notify sequence. -/
def createKeyringVault (s : KMState) (f : SysFetchResult) :
    KAccount × KMState × List KEvent :=
  let (s, e1) := clearWallet s
  let (vault, s) := createMainWallet s f
  let s := { s with
             wallet := { s.wallet with
                         accounts := ainsert s.wallet.accounts vault.id vault
                         activeAccount := vault } }
  let s := { s with keyring := { s.keyring with isUnlocked := true } }
  let (s, e2) := fullUpdate s
  (vault, s, e1 ++ [KEvent.setUnlockedFlag true] ++ e2)

/-- `setAccountIndexForDerivedAccount(accountId)` (lines 602-613): derives
the child account, pushes it onto the signer's account list and selects its
index. -/
def setAccountIndexForDerivedAccount (s : KMState) (accountId : Int) :
    KMState :=
  { s with hd := { s.hd with
                   accountsCount := s.hd.accountsCount + 1
                   accountIndex := accountId } }

/-- `getLatestUpdateForAccount()` (lines 518-534): reloads the in-memory
wallet from the snapshot, rewrites the snapshot, and queries the family
matching the active network (`none` = the web3 path crashed on a `null`
bootstrap field). -/
def getLatestUpdateForAccount (s : KMState) (sf : SysFetchResult)
    (wf : Web3FetchResult) : Option (CreatedAccount × KMState × List KEvent) :=
  let s := { s with wallet := s.keyring.wallet }
  let (s, e) := updateLocalStoreWallet s
  let isSyscoinChain :=
    (alookup s.wallet.networks.syscoin s.wallet.activeNetwork.chainId).isSome
  if isSyscoinChain then
    let (created, s) := getLatestUpdateForSysAccount s sf
    some (created, s, e)
  else
    match getLatestUpdateForWeb3Accounts s wf with
    | none => none
    | some acc =>
        some ({ balances := acc.balances
                receivingAddress := none
                xpub := acc.xpub
                transactions := acc.transactions
                assets := acc.assets
                address := acc.address }, s, e)

/-- `login(password)` (lines 444-458): rejects a wrong password before any
mutation; otherwise reloads the wallet from the snapshot, rebinds the
signer index, marks unlocked, notifies, rewrites the snapshot and refreshes
the active account. It never writes the `vault` record. -/
def login (s : KMState) (password : String) (sf : SysFetchResult)
    (wf : Web3FetchResult) :
    Except String KAccount × KMState × List KEvent :=
  let (ok, s) := checkPassword s password
  if ok then
    let (s, e1) := unlockWallet s password
    let s := setAccountIndexForDerivedAccount s s.wallet.activeAccount.id
    let (s, e2) := updateUnlocked s
    let (s, e3) := notifyUpdate s
    let (s, e4) := updateLocalStoreWallet s
    match getLatestUpdateForAccount s sf wf with
    | none => (Except.error "TypeError", s, e1 ++ e2 ++ e3 ++ e4)
    | some (_, s, e5) =>
        (Except.ok s.wallet.activeAccount, s, e1 ++ e2 ++ e3 ++ e4 ++ e5)
  else (Except.error "Invalid password", s, [])

/-- `logout()` (lines 460-473): clears the bootstrap mnemonic and the
in-memory password, marks the snapshot locked, drops the signer objects and
emits `lock` and `update`. The `vault` and `vault-key` records are not
touched. -/
def logout (s : KMState) : KMState × List KEvent :=
  let s := clearTemporaryLocalKeys s
  let s := { s with keyring := { s.keyring with isUnlocked := false } }
  let s := { s with hd := emptyHDSigner, main := emptyMainSigner }
  (s, [KEvent.setUnlockedFlag false, KEvent.emitLock,
       KEvent.notifyUpdate s.keyring])

/-- `removeAccount(accountId)` (lines 476-478): `delete
wallet.accounts[accountId]` and nothing else — no active-account check, no
error path, no persistence. -/
def removeAccount (s : KMState) (accountId : Int) : KMState :=
  { s with wallet := { s.wallet with
                       accounts := aerase s.wallet.accounts accountId } }

/-- `forgetMainWallet(pwd)` (lines 489-499): returns
`Error('Invalid password')` when `checkPassword(pwd)` SUCCEEDS, and on a
FAILED password check proceeds to clear the temporary keys, the signers and
the wallet and persist the cleared state. -/
def forgetMainWallet (s : KMState) (pwd : String) :
    Option String × KMState × List KEvent :=
  let (valid, s) := checkPassword s pwd
  if valid then (some "Invalid password", s, [])
  else
    let s := clearTemporaryLocalKeys s
    let s := forgetSigners s
    let s := { s with wallet := initialWalletState }
    let (s, e) := fullUpdate s
    (none, s, e)

/-- `_setSignerByChain(network, chain)` (lines 538-558): rewrites the
bootstrap record to the target network (the first write drops `isTestnet`),
then fills `isTestnet` from the RPC validation oracle for the syscoin
family or with `false` for the ethereum family. (`setActiveNetwork` of the
external network package rebinds the module-level web3 provider and is
modelled from the spec as changing no keyring state, spec 4.3: rebinding
the endpoint must not change wallet data.) -/
def setSignerByChain (s : KMState) (network : Network) (chain : Chain)
    (isTestnetOracle : Bool) : KMState :=
  let s := { s with signersKey := { mnemonic := s.signersKey.mnemonic
                                    network := some network
                                    isTestnet := none } }
  match chain with
  | Chain.syscoin =>
      { s with signersKey := { s.signersKey with
                               isTestnet := some isTestnetOracle } }
  | Chain.ethereum =>
      { s with signersKey := { s.signersKey with isTestnet := some false } }

/-- `_getAccountForNetwork({isSyscoinChain})` (lines 304-349): switches the
in-memory active network to the bootstrap record's network, persists, and
re-derives the active account for the selected family. A `null` bootstrap
network (impossible in the `setSignerNetwork` flow, which writes it first)
is modelled as a crash. -/
def getAccountForNetwork (s : KMState) (isSyscoinChain : Bool)
    (isTestnetOracle : Bool) (sf : SysFetchResult) (wf : Web3FetchResult) :
    Option (KAccount × KMState × List KEvent) :=
  match s.signersKey.network with
  | none => none
  | some network =>
    let mnemonic := s.signersKey.mnemonic
    let s := { s with wallet := { s.wallet with activeNetwork := network } }
    let (s, e1) := fullUpdate s
    if isSyscoinChain then
      let (h, m) := getSigners s.signersKey s.signers
      let s := { s with hd := h, main := m
                        signers := some { hd := h, main := m } }
      let xprv := getEncryptedXprv s
      let s := { s with signersKey := { mnemonic := mnemonic
                                        network := some network
                                        isTestnet := some isTestnetOracle } }
      let (updatedAccountInfo, s) := getLatestUpdateForSysAccount s sf
      let account := getInitialAccountData none h updatedAccountInfo xprv
      let s := { s with hd := { s.hd with accountIndex := account.id } }
      some (account, s, e1)
    else
      match getLatestUpdateForWeb3Accounts s wf with
      | none => none
      | some acc => some (acc, s, e1)

/-- `setSignerNetwork(network, chain)` (lines 561-598): rebinds the signer
context, replaces the target family's network map with the singleton for
the new network, persists, re-derives the active account for the new
context, installs it, and persists again. -/
def setSignerNetwork (s : KMState) (network : Network) (chain : Chain)
    (isTestnetOracle : Bool) (sf : SysFetchResult) (wf : Web3FetchResult) :
    Option (KAccount × KMState × List KEvent) :=
  let s := setSignerByChain s network chain isTestnetOracle
  let s := { s with
             wallet := { s.wallet with
                         networks := netSet s.wallet.networks chain
                                       [(network.chainId, network)]
                         activeNetwork := network } }
  let (s, e1) := fullUpdate s
  let s := setSignerByChain s network chain isTestnetOracle
  match getAccountForNetwork s (chain = Chain.syscoin) isTestnetOracle sf wf with
  | none => none
  | some (account, s, e2) =>
      let s := { s with
                 wallet := { s.wallet with
                             accounts := ainsert s.wallet.accounts account.id
                                           account
                             activeAccount := account } }
      let (s, e3) := fullUpdate s
      some (account, s, e1 ++ e2 ++ e3)

/-- `addNewAccount(label)` (lines 616-674): on the syscoin family, asks the
signer for the next index, refreshes from the snapshot and returns the new
account WITHOUT inserting it into the wallet or persisting; on the web3
family, generates a fresh account (oracle `newAcc`), inserts it and makes
it the ACTIVE account, also without persisting. Crashes (`none`) when the
bootstrap network is `null`. -/
def addNewAccount (s : KMState) (label : String) (newAcc : Web3NewAccount)
    (sf : SysFetchResult) (wf : Web3FetchResult) :
    Option (KAccount × KMState × List KEvent) :=
  match s.signersKey.network with
  | none => none
  | some network =>
    let isSyscoinChain :=
      (alookup s.wallet.networks.syscoin network.chainId).isSome
    let (h0, _m0) := getSigners s.signersKey s.signers
    if isSyscoinChain then
      let (id, h1) := hdCreateAccount h0
      let h2 := { h1 with accountIndex := id }
      match getLatestUpdateForAccount s sf wf with
      | none => none
      | some (latestUpdate, s, e) =>
          let xprv := getEncryptedXprv s
          let account := getInitialAccountData (some label) h2 latestUpdate xprv
          some ({ account with id := id }, s, e)
    else
      let created : CreatedAccount :=
        { balances := { syscoin := jsZero, ethereum := newAcc.balance }
          receivingAddress := some newAcc.address
          xpub := newAcc.address
          transactions := none
          assets := none
          address := none }
      let initialAccount :=
        getInitialAccountData (some label) h0 created newAcc.privateKey
      let s := { s with
                 wallet := { s.wallet with
                             accounts := ainsert s.wallet.accounts
                                           initialAccount.id initialAccount
                             activeAccount := initialAccount } }
      some (initialAccount, s, [])

/-- The state of a freshly constructed `KeyringManager()` (lines 23-55)
over empty external storage: empty password, initial wallet, the bootstrap
record seeded with an empty mnemonic and the default network, and a locked
snapshot. (`hasHdMnemonic()` in the constructor materializes the signer
pair from the empty bootstrap record.) -/
def initKMState : KMState :=
  let skey : SignersKeyRecord :=
    { mnemonic := some ""
      network := some initialWalletState.activeNetwork
      isTestnet := some false }
  let (h, m) := getSigners skey none
  { password := ""
    hd := h
    main := m
    wallet := initialWalletState
    vault := none
    vaultKey := none
    signersKey := skey
    keyring := { wallet := initialWalletState, isUnlocked := false }
    signers := none }

/-- `True` for a crashed (`none`) run, the stated property for a completed
one. -/
def onSome {α : Type} (o : Option α) (P : α → Prop) : Prop :=
  match o with
  | none => True
  | some a => P a

/-- Concrete oracle: a quiet syscoin backend answer. -/
def demoSysFetch : SysFetchResult :=
  { backendAddress := "zpub-demo"
    balance := jsZero
    transactions := []
    tokensAsset := []
    receivingAddress := "sys1-demo-address" }

/-- Concrete oracle: a quiet web3 indexer answer. -/
def demoWeb3Fetch : Web3FetchResult := { balance := jsZero, transactions := [] }

/-- Concrete oracle: a fresh web3 account. -/
def demoWeb3New : Web3NewAccount :=
  { address := "0xnew", privateKey := "pk-new", balance := jsZero }

/-- Scenario state: fresh manager after `setWalletPassword("correct-horse")`. -/
def kmAfterPassword : KMState := setWalletPassword initKMState "correct-horse"

/-- Scenario state: after `createSeed()` generated a mnemonic. -/
def kmAfterSeed : KMState :=
  (createSeed kmAfterPassword "demo seed words").2

/-- Scenario state: after `createKeyringVault()` on the fresh manager. -/
def kmAfterVault : KMState :=
  (createKeyringVault kmAfterSeed demoSysFetch).2.1

/-- The Ethereum Mainnet entry of `initialNetworksState`. -/
def ethMainnetNetwork : Network :=
  { chainId := 1
    url := "https://mainnet.infura.io/v3/c42232a29f9d4bd89d53313eb16ec241"
    label := "Ethereum Mainnet"
    isDefault := some true
    currency := some "eth" }

/-- Looking up the erased key finds nothing when keys are unique. -/
theorem alookup_aerase_self {α : Type} (m : List (Int × α)) (k : Int)
    (h : (m.map Prod.fst).Nodup) : alookup (aerase m k) k = none := by
  induction m with
  | nil => rfl
  | cons hd tl ih =>
      obtain ⟨k0, v0⟩ := hd
      simp only [List.map_cons, List.nodup_cons] at h
      by_cases hk : k0 = k
      · subst hk
        simp only [aerase, if_pos rfl]
        clear ih
        induction tl with
        | nil => rfl
        | cons hd2 tl2 ih2 =>
            obtain ⟨k1, v1⟩ := hd2
            simp only [List.map_cons, List.mem_cons, List.nodup_cons] at h
            have hne : ¬ k1 = k0 := fun he => h.1 (Or.inl he.symm)
            simp only [alookup, if_neg hne]
            exact ih2 ⟨fun hm => h.1 (Or.inr hm), h.2.2⟩
      · simp only [aerase, if_neg hk, alookup, if_neg hk]
        exact ih h.2

/-- Erasing one key leaves lookups of every other key unchanged. -/
theorem alookup_aerase_ne {α : Type} (m : List (Int × α)) (k j : Int)
    (hne : j ≠ k) : alookup (aerase m k) j = alookup m j := by
  induction m with
  | nil => rfl
  | cons hd tl ih =>
      obtain ⟨k0, v0⟩ := hd
      by_cases hk : k0 = k
      · subst hk
        have h2 : ¬ k0 = j := fun he => hne he.symm
        simp [aerase, alookup, h2]
      · by_cases hj : k0 = j
        · simp [aerase, alookup, hk, hj, hne]
        · simp [aerase, alookup, hk, hj, ih]

/-- One chain family's map after replacing that same family. -/
theorem netGet_netSet_same (n : NetworksState) (c : Chain)
    (v : List (Nat × Network)) : netGet (netSet n c v) c = v := by
  cases c <;> rfl

/-- The other chain family's map is untouched by a replacement. -/
theorem netGet_netSet_other (n : NetworksState) (c : Chain)
    (v : List (Nat × Network)) :
    netGet (netSet n c v) (otherChain c) = netGet n (otherChain c) := by
  cases c <;> rfl

/-- Scenario state for the mnemonic codec: mnemonic `"abc"` stored in the
bootstrap record, session password `"pw"`. -/
def mnemonicState : KMState :=
  { initKMState with
    signersKey := { initKMState.signersKey with mnemonic := some "abc" }
    password := "pw" }

/-- Scenario state whose bootstrap network is Ethereum Mainnet, driving
`addNewAccount` into the web3 branch. -/
def ethBranchState : KMState :=
  { kmAfterVault with
    signersKey := { kmAfterVault.signersKey with
                    network := some ethMainnetNetwork } }

/-- Text decoding inverts the byte encoding of the codec model. -/
theorem bytesToStr_strBytes (m : String) : bytesToStr (strBytes m) = m := by
  unfold bytesToStr strBytes
  cases m with
  | mk data =>
      have hfun : (Char.ofNat ∘ Char.toNat) = id :=
        funext fun c => Char.ofNat_toNat c
      simp [List.map_map, hfun]

/-- The modelled codec satisfies the spec's round trip once the decrypted
word array is decoded as text (the behaviour the source misses by calling
`toString()` with no encoder). -/
theorem aes_text_roundtrip (m p : String) :
    bytesToStr (aesDecrypt (aesEncrypt m p) p) = m := by
  unfold aesDecrypt aesEncrypt
  simp [bytesToStr_strBytes]

/-- C2: for every password `p` that does not equal the stored
password-verification record (`vault-key`), `login(p)` returns the
invalid-credentials error and leaves the whole keyring state — the
in-memory wallet and every storage record — unchanged, emitting nothing. -/
theorem C2_login_wrong_password_unchanged (s : KMState) (p : String)
    (sf : SysFetchResult) (wf : Web3FetchResult)
    (h : s.vaultKey ≠ some p) :
    login s p sf wf = (Except.error "Invalid password", s, []) := by
  unfold login checkPassword
  simp [h]

/-- Witness for C2 at a concrete state: a fresh manager has no `vault-key`
record, so any password is wrong. -/
theorem C2_login_wrong_password_unchanged_witness :
    login initKMState "wrong" demoSysFetch demoWeb3Fetch =
      (Except.error "Invalid password", initKMState, []) :=
  C2_login_wrong_password_unchanged initKMState "wrong" demoSysFetch
    demoWeb3Fetch (by decide)

/-- C9 counterexample: `checkPassword` is not state-free — with the correct
password it overwrites the in-memory session password variable
(`_password`), so the state after the call differs from the state before. -/
theorem C9_counterexample :
    (checkPassword { initKMState with vaultKey := some "p" } "p").1 = true
    ∧ (checkPassword { initKMState with vaultKey := some "p" } "p").2
        ≠ { initKMState with vaultKey := some "p" } := by
  constructor
  · decide
  · intro h
    have := congrArg KMState.password h
    simp [checkPassword, initKMState] at this

/-- C9 (amended): `checkPassword` returns `true` exactly when the argument
equals the stored `vault-key` record and touches no storage record or
wallet field; but on success it writes the argument into the in-memory
session password, and only on failure is the state fully unchanged. -/
theorem C9_checkPassword_characterization (s : KMState) (pwd : String) :
    ((checkPassword s pwd).1 = true ↔ s.vaultKey = some pwd)
    ∧ (checkPassword s pwd).2.wallet = s.wallet
    ∧ (checkPassword s pwd).2.vault = s.vault
    ∧ (checkPassword s pwd).2.vaultKey = s.vaultKey
    ∧ (checkPassword s pwd).2.signersKey = s.signersKey
    ∧ (checkPassword s pwd).2.keyring = s.keyring
    ∧ (checkPassword s pwd).2.signers = s.signers
    ∧ (checkPassword s pwd).2.hd = s.hd
    ∧ (checkPassword s pwd).2.main = s.main
    ∧ ((checkPassword s pwd).1 = false → (checkPassword s pwd).2 = s)
    ∧ ((checkPassword s pwd).1 = true → (checkPassword s pwd).2.password = pwd) := by
  by_cases h : s.vaultKey = some pwd <;> simp [checkPassword, h]

/-- C4 counterexample: `setWalletPassword` writes the raw password to the
`vault-key` storage record, and `logout` does not remove it — the plaintext
password is persisted. -/
theorem C4_counterexample :
    (setWalletPassword initKMState "hunter2").vaultKey = some "hunter2"
    ∧ (logout (setWalletPassword initKMState "hunter2")).1.vaultKey
        = some "hunter2" := by decide

/-- C4 (amended): the password is held in the in-memory session variable,
but it IS persisted in plaintext: `setWalletPassword` stores it verbatim in
the `vault-key` record (leaving the other records alone), `checkPassword`
compares against that plaintext record, and `logout` clears only the
in-memory copy, never the `vault-key` record. -/
theorem C4_password_persisted_in_plaintext (s : KMState) (pwd : String) :
    (setWalletPassword s pwd).vaultKey = some pwd
    ∧ (setWalletPassword s pwd).password = pwd
    ∧ (setWalletPassword s pwd).vault = s.vault
    ∧ (setWalletPassword s pwd).signersKey = s.signersKey
    ∧ (setWalletPassword s pwd).keyring = s.keyring
    ∧ (setWalletPassword s pwd).wallet = s.wallet
    ∧ (checkPassword (setWalletPassword s pwd) pwd).1 = true
    ∧ (logout (setWalletPassword s pwd)).1.password = ""
    ∧ (logout (setWalletPassword s pwd)).1.vaultKey = some pwd := by
  simp [setWalletPassword, checkPassword, logout, clearTemporaryLocalKeys]

/-- C3 counterexample: in the reachable state after vault creation the
active account has id `0`, yet `removeAccount(0)` raises no error and
deletes the active account from the map, changing the wallet and leaving
the active pointer dangling. -/
theorem C3_counterexample :
    kmAfterVault.wallet.activeAccount.id = 0
    ∧ (alookup kmAfterVault.wallet.accounts 0).isSome = true
    ∧ alookup (removeAccount kmAfterVault 0).wallet.accounts 0 = none
    ∧ (removeAccount kmAfterVault 0).wallet.accounts = [] := by decide

/-- C3 (amended): `removeAccount(id)` never fails and performs no
active-account check: it unconditionally deletes `id` from the accounts map
(also when `id` is the active account's id), leaves every other account and
the active pointer untouched, and persists nothing. -/
theorem C3_removeAccount_unconditional_delete (s : KMState) (id : Int)
    (hnd : (s.wallet.accounts.map Prod.fst).Nodup) :
    alookup (removeAccount s id).wallet.accounts id = none
    ∧ (∀ j : Int, j ≠ id →
        alookup (removeAccount s id).wallet.accounts j
          = alookup s.wallet.accounts j)
    ∧ (removeAccount s id).wallet.activeAccount = s.wallet.activeAccount
    ∧ (removeAccount s id).wallet.networks = s.wallet.networks
    ∧ (removeAccount s id).vault = s.vault
    ∧ (removeAccount s id).keyring = s.keyring
    ∧ (removeAccount s id).password = s.password := by
  refine ⟨alookup_aerase_self _ _ hnd,
          fun j hj => alookup_aerase_ne _ _ _ hj, rfl, rfl, rfl, rfl, rfl⟩

/-- Witness for C3 (amended) at the post-vault state, deleting the active
account id `0`. -/
theorem C3_removeAccount_unconditional_delete_witness :
    alookup (removeAccount kmAfterVault 0).wallet.accounts 0 = none
    ∧ (removeAccount kmAfterVault 0).wallet.activeAccount
        = kmAfterVault.wallet.activeAccount :=
  ⟨(C3_removeAccount_unconditional_delete kmAfterVault 0 (by decide)).1,
   (C3_removeAccount_unconditional_delete kmAfterVault 0 (by decide)).2.2.1⟩

/-- C1: the password check of `forgetMainWallet` is inverted. At the
reachable post-vault state whose stored verification record is
`"correct-horse"`, calling it with the CORRECT password returns
`Error('Invalid password')` and clears nothing (the state is bit-for-bit
unchanged), while calling it with a WRONG password reports no error and
wipes the wallet, the bootstrap record, the signers and the persisted
vault. -/
theorem C1_forgetMainWallet_check_inverted :
    kmAfterVault.vaultKey = some "correct-horse"
    ∧ forgetMainWallet kmAfterVault "correct-horse"
        = (some "Invalid password", kmAfterVault, [])
    ∧ (forgetMainWallet kmAfterVault "wrong-pass").1 = none
    ∧ (forgetMainWallet kmAfterVault "wrong-pass").2.1.wallet
        = initialWalletState
    ∧ (forgetMainWallet kmAfterVault "wrong-pass").2.1.signersKey.mnemonic
        = none
    ∧ (forgetMainWallet kmAfterVault "wrong-pass").2.1.signers = none
    ∧ (forgetMainWallet kmAfterVault "wrong-pass").2.1.vault
        = some initialWalletState
    ∧ kmAfterVault.vault ≠ some initialWalletState := by decide

/-- C7: the codec round trip fails at the repository level. With mnemonic
`"abc"` stored and session password `"pw"`, `getDecryptedMnemonic` returns
`"616263"` — the hex rendering CryptoJS's default `toString()` produces —
instead of the mnemonic `"abc"`; decoding the same decrypted word array as
text (the missing `CryptoJS.enc.Utf8` argument) does recover `"abc"`, so
the primitive round-trips and the hex default is the slip. -/
theorem C7_decrypted_mnemonic_is_hex :
    getDecryptedMnemonic mnemonicState = "616263"
    ∧ getDecryptedMnemonic mnemonicState ≠ "abc"
    ∧ bytesToStr (aesDecrypt (getEncryptedMnemonic mnemonicState)
        mnemonicState.password) = "abc" := by decide

/-- C8: on a fresh keyring (no stored signer pair), `createKeyringVault`
first clears the wallet (the first emitted event is the snapshot of the
cleared initial state), then yields exactly one account at the signer's
first derivation index `0`, makes it the active account, keeps the default
Syscoin mainnet active network, marks the snapshot unlocked, persists the
final wallet to the vault record and the snapshot, and returns that
account. -/
theorem C8_createKeyringVault_fresh (s : KMState) (f : SysFetchResult)
    (hfresh : s.signers = none) :
    (createKeyringVault s f).2.1.wallet.accounts
        = [(0, (createKeyringVault s f).1)]
    ∧ (createKeyringVault s f).1.id = 0
    ∧ (createKeyringVault s f).2.1.wallet.activeAccount
        = (createKeyringVault s f).1
    ∧ (createKeyringVault s f).2.1.wallet.activeNetwork
        = defaultSyscoinNetwork
    ∧ (createKeyringVault s f).2.1.keyring.isUnlocked = true
    ∧ (createKeyringVault s f).2.1.vault
        = some (createKeyringVault s f).2.1.wallet
    ∧ (createKeyringVault s f).2.1.keyring.wallet
        = (createKeyringVault s f).2.1.wallet
    ∧ (createKeyringVault s f).2.2.head?
        = some (KEvent.snapshotKeyring initialWalletState) := by
  simp [createKeyringVault, clearWallet, updateLocalStoreWallet,
        createMainWallet, getSigners, hfresh, getEncryptedXprv,
        getLatestUpdateForSysAccount, getInitialAccountData,
        getFormattedBackendAccount, fullUpdate, persistWallet, notifyUpdate,
        ainsert, initialWalletState]

/-- Witness for C8 at the concrete fresh manager (password and seed set,
no stored signers). -/
theorem C8_createKeyringVault_fresh_witness :
    (createKeyringVault kmAfterSeed demoSysFetch).1.id = 0
    ∧ (createKeyringVault kmAfterSeed demoSysFetch).2.1.wallet.activeNetwork
        = defaultSyscoinNetwork :=
  ⟨(C8_createKeyringVault_fresh kmAfterSeed demoSysFetch (by decide)).2.1,
   (C8_createKeyringVault_fresh kmAfterSeed demoSysFetch
      (by decide)).2.2.2.1⟩

/-- A completed `getLatestUpdateForAccount` emits exactly one event: the
snapshot rewrite of the wallet it reloaded from the snapshot. -/
theorem getLatestUpdateForAccount_events (s : KMState) (sf : SysFetchResult)
    (wf : Web3FetchResult) (r : CreatedAccount × KMState × List KEvent)
    (h : getLatestUpdateForAccount s sf wf = some r) :
    r.2.2 = [KEvent.snapshotKeyring s.keyring.wallet] := by
  unfold getLatestUpdateForAccount updateLocalStoreWallet at h
  dsimp only [] at h
  split at h
  · injection h with h2
    subst h2
    rfl
  · split at h
    · exact Option.noConfusion h
    · injection h with h2
      subst h2
      rfl

/-- C5 (amended): `_fullUpdate` — used by `createKeyringVault`,
`setSignerNetwork` and `forgetMainWallet` — does run persist, then snapshot
with the same wallet state, then notify, in that order (it ignores
persist's return value; no rollback path exists and none is reachable,
since the in-memory password is always a string); but `login` and
`addNewAccount` perform NO persist at all — `login` notifies and then
rewrites the snapshot, and `addNewAccount` mutates only in-memory state. -/
theorem C5_persist_sequence_amended :
    (∀ s : KMState,
        (fullUpdate s).2
          = [KEvent.persistVault s.wallet,
             KEvent.snapshotKeyring s.wallet,
             KEvent.notifyUpdate
               { wallet := s.wallet, isUnlocked := s.keyring.isUnlocked }])
    ∧ (∀ (s : KMState) (p : String) (sf : SysFetchResult)
          (wf : Web3FetchResult),
        (login s p sf wf).2.2.filter KEvent.isPersist = [])
    ∧ (∀ (s : KMState) (label : String) (n : Web3NewAccount)
          (sf : SysFetchResult) (wf : Web3FetchResult),
        ((addNewAccount s label n sf wf).map
            (fun r => r.2.2.filter KEvent.isPersist)).getD [] = []) := by
  refine ⟨fun s => rfl, fun s p sf wf => ?_, fun s label n sf wf => ?_⟩
  · by_cases h : s.vaultKey = some p
    · simp only [login, checkPassword, h, if_pos, if_true]
      split
      · simp [unlockWallet, clearWallet, updateLocalStoreWallet,
              updateUnlocked, notifyUpdate, KEvent.isPersist]
      · next c st ev heq =>
          have he := getLatestUpdateForAccount_events _ _ _ (c, st, ev) heq
          simp only [] at he
          simp [unlockWallet, clearWallet, updateLocalStoreWallet,
                updateUnlocked, notifyUpdate, KEvent.isPersist, he]
    · simp [login, checkPassword, h]
  · unfold addNewAccount
    split
    · rfl
    · next network hnet =>
        dsimp only []
        split
        · split
          · rfl
          · next c st ev heq =>
              have he := getLatestUpdateForAccount_events _ _ _ (c, st, ev) heq
              simp only [] at he
              simp [he, KEvent.isPersist]
        · simp [KEvent.isPersist]

/-- Scenario state: locked manager (after `logout`) with vault intact. -/
def kmLocked : KMState := (logout kmAfterVault).1

/-- C5 counterexample: `login` with the correct password is a mutating
operation (it flips the persisted `isUnlocked` flag from `false` to `true`)
yet its event trace contains no persist of the vault record at all — the
claimed persist→snapshot→notify sequence does not happen. -/
theorem C5_counterexample :
    kmLocked.keyring.isUnlocked = false
    ∧ (login kmLocked "correct-horse" demoSysFetch
        demoWeb3Fetch).2.1.keyring.isUnlocked = true
    ∧ (login kmLocked "correct-horse" demoSysFetch
        demoWeb3Fetch).2.2.filter KEvent.isPersist = [] := by decide

/-- A completed `getLatestUpdateForAccount` leaves the in-memory wallet
equal to the snapshot's wallet and does not touch the vault record. -/
theorem getLatestUpdateForAccount_state (s : KMState) (sf : SysFetchResult)
    (wf : Web3FetchResult) (r : CreatedAccount × KMState × List KEvent)
    (h : getLatestUpdateForAccount s sf wf = some r) :
    r.2.1.wallet = s.keyring.wallet ∧ r.2.1.vault = s.vault := by
  unfold getLatestUpdateForAccount updateLocalStoreWallet
    getLatestUpdateForSysAccount at h
  dsimp only [] at h
  split at h
  · injection h with h2
    subst h2
    exact ⟨rfl, rfl⟩
  · split at h
    · exact Option.noConfusion h
    · injection h with h2
      subst h2
      exact ⟨rfl, rfl⟩

/-- C6 counterexample: from the post-vault state with the bootstrap network
set to Ethereum Mainnet, `addNewAccount("Trading")` completes, CHANGES the
active-account pointer to the new account, and emits no persist. -/
theorem C6_counterexample :
    (addNewAccount ethBranchState "Trading" demoWeb3New demoSysFetch
        demoWeb3Fetch).isSome = true
    ∧ ((addNewAccount ethBranchState "Trading" demoWeb3New demoSysFetch
          demoWeb3Fetch).map (fun r => r.2.1.wallet.activeAccount))
        ≠ some ethBranchState.wallet.activeAccount
    ∧ ((addNewAccount ethBranchState "Trading" demoWeb3New demoSysFetch
          demoWeb3Fetch).map (fun r => r.2.2.filter KEvent.isPersist))
        = some [] := by decide

/-- C6 (amended): a completed `addNewAccount(label)` derives the new
account through the signer adapter but persists nothing; in the syscoin
branch the final wallet is just the snapshot's wallet — the returned
account is NOT inserted into the accounts map; in the ethereum branch the
new account is inserted AND becomes the active account, changing the
active-account pointer. -/
theorem C6_addNewAccount_amended (s : KMState) (label : String)
    (n : Web3NewAccount) (sf : SysFetchResult) (wf : Web3FetchResult) :
    onSome (addNewAccount s label n sf wf) (fun r =>
      r.2.2.filter KEvent.isPersist = []
      ∧ r.2.1.vault = s.vault
      ∧ (match s.signersKey.network with
         | none => True
         | some network =>
             if (alookup s.wallet.networks.syscoin network.chainId).isSome
             then r.2.1.wallet = s.keyring.wallet
             else r.2.1.wallet.activeAccount = r.1
               ∧ r.2.1.wallet.accounts
                   = ainsert s.wallet.accounts r.1.id r.1)) := by
  unfold addNewAccount
  dsimp only []
  split
  · exact trivial
  · next network hnet =>
      split
      · next hsys =>
          split
          · exact trivial
          · next c st ev heq =>
              have he := getLatestUpdateForAccount_events _ _ _ (c, st, ev)
                heq
              have hst := getLatestUpdateForAccount_state _ _ _ (c, st, ev)
                heq
              simp only [] at he hst
              unfold onSome
              exact ⟨by simp [he, KEvent.isPersist], hst.2, hst.1⟩
      · next hsys =>
          unfold onSome
          exact ⟨rfl, rfl, rfl, rfl⟩

/-- `_setSignerByChain` touches only the bootstrap record, never the
in-memory wallet. -/
theorem setSignerByChain_wallet (s : KMState) (nw : Network) (c : Chain)
    (o : Bool) : (setSignerByChain s nw c o).wallet = s.wallet := by
  cases c <;> rfl

/-- `_fullUpdate` never changes the in-memory wallet. -/
theorem fullUpdate_wallet (s : KMState) : (fullUpdate s).1.wallet = s.wallet :=
  rfl

/-- A completed `_getAccountForNetwork` never changes the networks maps. -/
theorem getAccountForNetwork_networks (s : KMState) (b o : Bool)
    (sf : SysFetchResult) (wf : Web3FetchResult)
    (r : KAccount × KMState × List KEvent)
    (h : getAccountForNetwork s b o sf wf = some r) :
    r.2.1.wallet.networks = s.wallet.networks := by
  unfold getAccountForNetwork fullUpdate persistWallet
    updateLocalStoreWallet notifyUpdate getLatestUpdateForSysAccount at h
  dsimp only [] at h
  split at h
  · exact Option.noConfusion h
  · split at h
    · injection h with h2
      subst h2
      rfl
    · split at h
      · exact Option.noConfusion h
      · injection h with h2
        subst h2
        rfl

/-- C10: after a completed `setSignerNetwork(network, chain)`, the wallet's
networks map for `chain` holds exactly the single entry
`network.chainId ↦ network` — every other network of that family is gone —
while the other chain family's map is exactly what it was before. -/
theorem C10_setSignerNetwork_networks (s : KMState) (nw : Network)
    (chain : Chain) (o : Bool) (sf : SysFetchResult) (wf : Web3FetchResult) :
    onSome (setSignerNetwork s nw chain o sf wf) (fun r =>
      netGet r.2.1.wallet.networks chain = [(nw.chainId, nw)]
      ∧ netGet r.2.1.wallet.networks (otherChain chain)
          = netGet s.wallet.networks (otherChain chain)) := by
  unfold setSignerNetwork
  dsimp only []
  split
  · exact trivial
  · next acct st ev heq =>
      have hnets := getAccountForNetwork_networks _ _ _ _ _ (acct, st, ev)
        heq
      simp only [setSignerByChain_wallet, fullUpdate_wallet] at hnets
      unfold onSome
      rw [hnets]
      exact ⟨netGet_netSet_same _ _ _, netGet_netSet_other _ _ _⟩

/-- `setSignerNetwork` does complete on concrete inputs (the property of
`C10` is not vacuous): switching the demo manager to Ethereum Mainnet
succeeds and leaves one ethereum entry and the two original syscoin
entries. -/
theorem setSignerNetwork_demo_completes :
    ((setSignerNetwork kmAfterVault ethMainnetNetwork Chain.ethereum false
        demoSysFetch demoWeb3Fetch).map
      (fun r => (netGet r.2.1.wallet.networks Chain.ethereum,
                 netGet r.2.1.wallet.networks Chain.syscoin)))
      = some ([(1, ethMainnetNetwork)],
              netGet kmAfterVault.wallet.networks Chain.syscoin) := by decide

/-- The syscoin branch of `addNewAccount` also completes on concrete
inputs, returning the next index `1` while leaving the accounts map as the
snapshot's (the new account is not inserted). -/
theorem addNewAccount_sys_demo_completes :
    ((addNewAccount kmAfterVault "Trading" demoWeb3New demoSysFetch
        demoWeb3Fetch).map
      (fun r => (r.1.id, r.2.1.wallet.accounts.length)))
      = some (1, 1) := by decide
